import Mathlib

/-!
Verification development for the life-plan projection program (`src/app.py`).

The program's two core functions, `calculate_monthly_loan_payment` and
`simulate_life_plan`, are embedded shallowly below.  Monetary quantities and
rates are modelled by rational numbers (the Python code computes with real
arithmetic); Python's `int(...)` conversion, which truncates toward zero, is
modelled by `truncQ`.  Configuration amounts keep the units of the source:
salaries, bonuses, school amounts, insurance payouts, one-off amounts and the
loan principal are in units of 10000 yen (man-yen, converted by `* 10000`
where the source converts), monthly recurring expenditures are in units of
1000 yen, and insurance monthly premiums are in yen.  The per-year dictionary
of member ages (a Python `dict` keyed by member name, insertion ordered, with
later insertions overwriting earlier ones) is modelled by an association list
built with `dictInsert`.
-/

namespace LifePlan

/-- The nine recurring-expenditure categories of `get_initial_data` /
`simulate_life_plan` (the keys of the expenditure dict that do not end in
`_at_60` / `_at_65`). -/
inductive Cat where
  | housing
  | food
  | transportation
  | education
  | utilities
  | communication
  | leisure
  | medical
  | other
deriving DecidableEq

/-- The fixed iteration order of the expenditure categories. -/
def Cat.all : List Cat :=
  [.housing, .food, .transportation, .education, .utilities,
   .communication, .leisure, .medical, .other]

/-- One entry of `family["members"]`. -/
structure Member where
  name : String
  initial_age : Int
deriving DecidableEq

/-- The `family` section of the configuration. -/
structure Family where
  members : List Member
  years_to_simulate : Nat
  initial_assets : ℚ
  investment_return_rate : ℚ
  inflation_rate : ℚ
  income_growth_rate : ℚ
  income_growth_step_years : Nat

/-- The `income` section of the configuration (man-yen units, as in the source). -/
structure IncomeConfig where
  monthly_salary_main : ℚ
  monthly_salary_sub : ℚ
  bonus_annual : ℚ
  monthly_salary_main_at_60 : ℚ
  monthly_salary_sub_at_60 : ℚ
  bonus_annual_at_60 : ℚ
  monthly_salary_main_at_65 : ℚ
  monthly_salary_sub_at_65 : ℚ
  bonus_annual_at_65 : ℚ

/-- The `expenditure` section: base monthly amounts (thousand yen) and the
age-60 / age-65 replacement values per category. -/
structure ExpenditureConfig where
  base : Cat → ℚ
  at60 : Cat → ℚ
  at65 : Cat → ℚ

/-- One entry of `school_lump_sums` (amounts in man-yen). -/
structure SchoolStage where
  amount : ℚ
  start_age : Int
  duration : Int
  annual_cost : ℚ

/-- One entry of `insurance_policies` (`monthly_premium` in yen,
`payout_amount` in man-yen, exactly as in the source). -/
structure Policy where
  monthly_premium : ℚ
  maturity_year : Int
  payout_amount : ℚ
  start_year : Int

/-- One entry of `other_lump_expenditures` (amount in man-yen). -/
structure LumpExpenditure where
  amount : ℚ
  year : Int

/-- The `housing_loan` section (`loan_amount` in man-yen). -/
structure HousingLoan where
  loan_amount : ℚ
  loan_interest_rate : ℚ
  loan_term_years : Int
  start_year : Int

/-- The whole configuration consumed by `simulate_life_plan`. -/
structure Config where
  family : Family
  income : IncomeConfig
  expenditure : ExpenditureConfig
  school_lump_sums : List SchoolStage
  insurance_policies : List Policy
  other_lump_expenditures : List LumpExpenditure
  housing_loan : HousingLoan

/-- Python's `int(x)` on a real value: truncation toward zero. -/
def truncQ (q : ℚ) : Int :=
  if 0 ≤ q then ⌊q⌋ else ⌈q⌉

/-- `calculate_monthly_loan_payment` from `src/app.py` (lines 89-108): the
man-yen principal is converted to yen; a non-positive principal or term gives
0; a zero monthly rate gives straight-line division; otherwise the standard
annuity (PMT) formula is used. -/
def calculate_monthly_loan_payment
    (loan_amount_man : ℚ) (annual_interest_rate : ℚ) (loan_term_years : Int) : ℚ :=
  if loan_amount_man * 10000 ≤ 0 ∨ loan_term_years ≤ 0 then 0
  else if annual_interest_rate / 12 = 0 then
    loan_amount_man * 10000 / (((loan_term_years * 12).toNat : ℚ))
  else
    loan_amount_man * 10000
        * (annual_interest_rate / 12 * (1 + annual_interest_rate / 12) ^ (loan_term_years * 12).toNat)
      / ((1 + annual_interest_rate / 12) ^ (loan_term_years * 12).toNat - 1)

/-- The monthly loan payment precomputed before the simulation loop
(lines 151-155). -/
def mlpOf (cfg : Config) : ℚ :=
  calculate_monthly_loan_payment cfg.housing_loan.loan_amount
    cfg.housing_loan.loan_interest_rate cfg.housing_loan.loan_term_years

/-- Payout of one policy in a given year (lines 208-210): only when
`maturity_year > 0` and the year matches. -/
def policy_payout (p : Policy) (year : Nat) : ℚ :=
  if 0 < p.maturity_year ∧ (year : Int) = p.maturity_year then p.payout_amount * 10000 else 0

/-- `annual_insurance_payout_yen` for a year (lines 207-210). -/
def annual_insurance_payout (ps : List Policy) (year : Nat) : ℚ :=
  (ps.map (fun p => policy_payout p year)).sum

/-- Premium of one policy in a given year (lines 235-237): charged whenever
`start_year ≤ year`. -/
def policy_premium (p : Policy) (year : Nat) : ℚ :=
  if p.start_year ≤ (year : Int) then p.monthly_premium * 12 else 0

/-- `annual_insurance_premium_yen` for a year (lines 234-237). -/
def annual_insurance_premium (ps : List Policy) (year : Nat) : ℚ :=
  (ps.map (fun p => policy_premium p year)).sum

/-- The condition under which the housing recurring-expense line is skipped
(lines 220-222): an active mortgage covers housing. -/
def housing_covered (loan : HousingLoan) (year : Nat) : Prop :=
  0 < loan.loan_amount ∧ loan.start_year ≤ (year : Int) ∧
    (year : Int) - loan.start_year + 1 ≤ loan.loan_term_years

instance (loan : HousingLoan) (year : Nat) : Decidable (housing_covered loan year) := by
  unfold housing_covered
  infer_instance

/-- `current_base_monthly_exp_thousand_yen` (lines 217-225): the sum of the
current per-category monthly amounts, with housing contributing 0 while the
mortgage covers it. -/
def base_monthly_exp (loan : HousingLoan) (year : Nat) (cur : Cat → ℚ) : ℚ :=
  (Cat.all.map (fun c => if c = Cat.housing ∧ housing_covered loan year then 0 else cur c)).sum

/-- `annual_housing_loan_payment_yen` for a year (lines 240-243). -/
def annual_loan_payment (loan : HousingLoan) (mlp : ℚ) (year : Nat) : ℚ :=
  if 0 < loan.loan_amount ∧ 0 < loan.loan_term_years ∧ loan.start_year ≤ (year : Int) ∧
      (year : Int) - loan.start_year + 1 ≤ loan.loan_term_years
  then mlp * 12 else 0

/-- School lump sums one member (at a given start-of-year age) triggers
(lines 253-256). -/
def member_school_lump (stages : List SchoolStage) (age : Int) : ℚ :=
  (stages.map (fun st =>
    if 0 < st.start_age ∧ age = st.start_age then st.amount * 10000 else 0)).sum

/-- School enrollment costs one member (at a given start-of-year age) triggers
(lines 258-263). -/
def member_school_enroll (stages : List SchoolStage) (age : Int) : ℚ :=
  (stages.map (fun st =>
    if 0 < st.start_age ∧ 0 < st.duration ∧ st.start_age ≤ age ∧
        age ≤ st.start_age + st.duration - 1
    then st.annual_cost * 10000 else 0)).sum

/-- `annual_school_lump_sum_yen` (lines 250-256): members with age 0 (or less)
are skipped by the `age > 0` guard at line 252. -/
def annual_school_lump (stages : List SchoolStage) (ages : List (String × Int)) : ℚ :=
  (ages.map (fun p => if 0 < p.2 then member_school_lump stages p.2 else 0)).sum

/-- `annual_school_enrollment_cost_yen` (lines 250-263), same member guard. -/
def annual_school_enroll (stages : List SchoolStage) (ages : List (String × Int)) : ℚ :=
  (ages.map (fun p => if 0 < p.2 then member_school_enroll stages p.2 else 0)).sum

/-- `annual_other_lump_expenditure_yen` (lines 266-269). -/
def annual_other_lump (ls : List LumpExpenditure) (year : Nat) : ℚ :=
  (ls.map (fun l => if l.year = (year : Int) then l.amount * 10000 else 0)).sum

/-- Python-dict insertion on an association list: overwrite the value of an
existing key in place, otherwise append the binding at the end. -/
def dictInsert (m : List (String × Int)) (k : String) (v : Int) : List (String × Int) :=
  if m.any (fun p => p.1 == k) then
    m.map (fun p => if p.1 == k then (k, v) else p)
  else m ++ [(k, v)]

/-- `member_current_ages_in_sim` initialisation (line 144): a dict
comprehension over the member list, later members overwriting earlier
same-named ones. -/
def buildAges (members : List Member) : List (String × Int) :=
  members.foldl (fun m mb => dictInsert m mb.name mb.initial_age) []

/-- Dictionary lookup of a member's age (first binding of the key; the keys of
a `buildAges` result are unique). -/
def lookupAge (m : List (String × Int)) (k : String) : Int :=
  ((m.find? (fun p => p.1 == k)).map Prod.snd).getD 0

/-- The mutable loop state of `simulate_life_plan`: running assets (yen),
current income components (yen), current recurring expenditures (thousand
yen), the member-age dict, and the two one-shot age flags. -/
structure SimState where
  current_assets : ℚ
  main : ℚ
  sub : ℚ
  bonus : ℚ
  curExp : Cat → ℚ
  ages : List (String × Int)
  changed60 : Bool
  changed65 : Bool

/-- The state entering the loop (lines 131-148). -/
def initState (cfg : Config) : SimState where
  current_assets := cfg.family.initial_assets * 10000
  main := cfg.income.monthly_salary_main * 10000
  sub := cfg.income.monthly_salary_sub * 10000
  bonus := cfg.income.bonus_annual * 10000
  curExp := cfg.expenditure.base
  ages := buildAges cfg.family.members
  changed60 := false
  changed65 := false

/-- The periodic income-growth step (lines 160-164): applied only when
neither age flag has fired, in years `year > 1` with
`(year - 1) % income_growth_step_years == 0`. -/
def applyGrowth (cfg : Config) (year : Nat) (s : SimState) : SimState :=
  if s.changed60 = false ∧ s.changed65 = false ∧
      (year - 1) % cfg.family.income_growth_step_years = 0 ∧ 1 < year then
    { s with
      main := s.main * (1 + cfg.family.income_growth_rate),
      sub := s.sub * (1 + cfg.family.income_growth_rate),
      bonus := s.bonus * (1 + cfg.family.income_growth_rate) }
  else s

/-- The age-60 override block (lines 174-188): fires once when the reference
member's start-of-year age reaches 60; a zero override value leaves the
corresponding component unchanged. -/
def applyAt60 (cfg : Config) (age : Int) (s : SimState) : SimState :=
  if s.changed60 = false ∧ 60 ≤ age then
    { s with
      main := if 0 < cfg.income.monthly_salary_main_at_60 then
                cfg.income.monthly_salary_main_at_60 * 10000 else s.main,
      sub := if 0 < cfg.income.monthly_salary_sub_at_60 then
                cfg.income.monthly_salary_sub_at_60 * 10000 else s.sub,
      bonus := if 0 < cfg.income.bonus_annual_at_60 then
                cfg.income.bonus_annual_at_60 * 10000 else s.bonus,
      curExp := fun c => if 0 < cfg.expenditure.at60 c then cfg.expenditure.at60 c else s.curExp c,
      changed60 := true }
  else s

/-- The age-65 override block (lines 190-204), symmetric to `applyAt60`. -/
def applyAt65 (cfg : Config) (age : Int) (s : SimState) : SimState :=
  if s.changed65 = false ∧ 65 ≤ age then
    { s with
      main := if 0 < cfg.income.monthly_salary_main_at_65 then
                cfg.income.monthly_salary_main_at_65 * 10000 else s.main,
      sub := if 0 < cfg.income.monthly_salary_sub_at_65 then
                cfg.income.monthly_salary_sub_at_65 * 10000 else s.sub,
      bonus := if 0 < cfg.income.bonus_annual_at_65 then
                cfg.income.bonus_annual_at_65 * 10000 else s.bonus,
      curExp := fun c => if 0 < cfg.expenditure.at65 c then cfg.expenditure.at65 c else s.curExp c,
      changed65 := true }
  else s

/-- Lines 170-204: both override blocks, keyed on the first member's
start-of-year age, skipped entirely when the member list is empty. -/
def applyOverrides (cfg : Config) (s : SimState) : SimState :=
  match cfg.family.members with
  | [] => s
  | m0 :: _ => applyAt65 cfg (lookupAge s.ages m0.name) (applyAt60 cfg (lookupAge s.ages m0.name) s)

/-- The state after the growth step and the override blocks of one year,
before the cash flows are computed. -/
def midState (cfg : Config) (year : Nat) (s : SimState) : SimState :=
  applyOverrides cfg (applyGrowth cfg year s)

/-- `annual_income_yen` (line 213), from the post-override state. -/
def incomeQof (cfg : Config) (year : Nat) (s2 : SimState) : ℚ :=
  (s2.main + s2.sub) * 12 + s2.bonus + annual_insurance_payout cfg.insurance_policies year

/-- The compounded inflation factor `(1 + inflation_rate) ** (year - 1)`. -/
def inflFactor (cfg : Config) (year : Nat) : ℚ :=
  (1 + cfg.family.inflation_rate) ^ (year - 1)

/-- `current_annual_total_expenditure_yen` (lines 217-272), from the
post-override state. -/
def expenseQof (cfg : Config) (year : Nat) (s2 : SimState) : ℚ :=
  base_monthly_exp cfg.housing_loan year s2.curExp * 1000 * 12 * inflFactor cfg year
    + annual_insurance_premium cfg.insurance_policies year
    + annual_loan_payment cfg.housing_loan (mlpOf cfg) year
    + annual_school_lump cfg.school_lump_sums s2.ages
    + annual_school_enroll cfg.school_lump_sums s2.ages
    + annual_other_lump cfg.other_lump_expenditures year

/-- `annual_balance_yen` (line 275). -/
def balanceQof (cfg : Config) (year : Nat) (s2 : SimState) : ℚ :=
  incomeQof cfg year s2 - expenseQof cfg year s2

/-- The asset update of line 278. -/
def newAssetsOf (cfg : Config) (year : Nat) (s2 : SimState) : ℚ :=
  s2.current_assets * (1 + cfg.family.investment_return_rate) + balanceQof cfg year s2

/-- One emitted row (lines 280-294): the `...Q` fields are the real-valued
quantities the Python code computes, the `Int` fields are their `int(...)`
truncations written into the row. -/
structure Record where
  year : Nat
  ages : List (String × Int)
  incomeQ : ℚ
  expenseQ : ℚ
  balanceQ : ℚ
  assetsQ : ℚ
  monthlyDispQ : ℚ
  premiumQ : ℚ
  loanPayQ : ℚ
  schoolLumpQ : ℚ
  schoolEnrollQ : ℚ
  otherLumpQ : ℚ
  payoutQ : ℚ
  income : Int
  expense : Int
  balance : Int
  yearEndAssets : Int
  monthlyDisp : Int
  premium : Int
  loanPay : Int
  schoolLump : Int
  schoolEnroll : Int
  otherLump : Int
  payout : Int

/-- One iteration of the simulation loop (lines 157-328): growth and override
steps, the year's cash flows, the asset update, the emitted row, and the
member-age increment for the next year. -/
def yearStep (cfg : Config) (year : Nat) (s : SimState) : SimState × Record :=
  let s2 := midState cfg year s
  let payoutQ := annual_insurance_payout cfg.insurance_policies year
  let incomeQ := incomeQof cfg year s2
  let monthlyDispQ := base_monthly_exp cfg.housing_loan year s2.curExp * 1000 * inflFactor cfg year
  let premiumQ := annual_insurance_premium cfg.insurance_policies year
  let loanPayQ := annual_loan_payment cfg.housing_loan (mlpOf cfg) year
  let schoolLumpQ := annual_school_lump cfg.school_lump_sums s2.ages
  let schoolEnrollQ := annual_school_enroll cfg.school_lump_sums s2.ages
  let otherLumpQ := annual_other_lump cfg.other_lump_expenditures year
  let expenseQ := expenseQof cfg year s2
  let balanceQ := balanceQof cfg year s2
  let newAssets := newAssetsOf cfg year s2
  ({ s2 with
      current_assets := newAssets,
      ages := s2.ages.map (fun p => (p.1, p.2 + 1)) },
   { year := year
     ages := s2.ages
     incomeQ := incomeQ
     expenseQ := expenseQ
     balanceQ := balanceQ
     assetsQ := newAssets
     monthlyDispQ := monthlyDispQ
     premiumQ := premiumQ
     loanPayQ := loanPayQ
     schoolLumpQ := schoolLumpQ
     schoolEnrollQ := schoolEnrollQ
     otherLumpQ := otherLumpQ
     payoutQ := payoutQ
     income := truncQ incomeQ
     expense := truncQ expenseQ
     balance := truncQ balanceQ
     yearEndAssets := truncQ newAssets
     monthlyDisp := truncQ monthlyDispQ
     premium := truncQ premiumQ
     loanPay := truncQ loanPayQ
     schoolLump := truncQ schoolLumpQ
     schoolEnroll := truncQ schoolEnrollQ
     otherLump := truncQ otherLumpQ
     payout := truncQ payoutQ })

/-- The loop state after `n` completed iterations. -/
def stateAfter (cfg : Config) : Nat → SimState
  | 0 => initState cfg
  | n + 1 => (yearStep cfg (n + 1) (stateAfter cfg n)).1

/-- The row emitted for a simulated year (`year ≥ 1`). -/
def recordFor (cfg : Config) (year : Nat) : Record :=
  (yearStep cfg year (stateAfter cfg (year - 1))).2

/-- `simulate_life_plan` from `src/app.py` (lines 111-330): the ordered list
of rows for years `1 .. years_to_simulate`. -/
def simulate_life_plan (cfg : Config) : List Record :=
  (List.range cfg.family.years_to_simulate).map (fun i => recordFor cfg (i + 1))

/-- The age the simulation tracks for a name, as the spec's words describe it:
the `initial_age` of the LAST member carrying that name (0 when no member
does).  Compared against `buildAges`, the definition from the source. -/
def lastNamedAge (members : List Member) (k : String) : Int :=
  ((members.reverse.find? (fun mb => mb.name == k)).map Member.initial_age).getD 0

/-- A concrete insurance policy with `start_year = 0` and `maturity_year = 0`
(premium 5 yen per month). -/
def polW : Policy where
  monthly_premium := 5
  maturity_year := 0
  payout_amount := 7
  start_year := 0

/-- A minimal one-member, one-year configuration carrying `polW`. -/
def cfgC5 : Config where
  family :=
    { members := [{ name := "A", initial_age := 30 }]
      years_to_simulate := 1
      initial_assets := 0
      investment_return_rate := 0
      inflation_rate := 0
      income_growth_rate := 0
      income_growth_step_years := 10 }
  income :=
    { monthly_salary_main := 0, monthly_salary_sub := 0, bonus_annual := 0
      monthly_salary_main_at_60 := 0, monthly_salary_sub_at_60 := 0, bonus_annual_at_60 := 0
      monthly_salary_main_at_65 := 0, monthly_salary_sub_at_65 := 0, bonus_annual_at_65 := 0 }
  expenditure := { base := fun _ => 0, at60 := fun _ => 0, at65 := fun _ => 0 }
  school_lump_sums := []
  insurance_policies := [polW]
  other_lump_expenditures := []
  housing_loan := { loan_amount := 0, loan_interest_rate := 0, loan_term_years := 35, start_year := 1 }

/-- A minimal configuration without insurance, used to instantiate theorems. -/
def cfgW : Config where
  family :=
    { members := [{ name := "A", initial_age := 30 }]
      years_to_simulate := 1
      initial_assets := 50
      investment_return_rate := 0
      inflation_rate := 0
      income_growth_rate := 0
      income_growth_step_years := 10 }
  income :=
    { monthly_salary_main := 30, monthly_salary_sub := 0, bonus_annual := 60
      monthly_salary_main_at_60 := 0, monthly_salary_sub_at_60 := 0, bonus_annual_at_60 := 0
      monthly_salary_main_at_65 := 0, monthly_salary_sub_at_65 := 0, bonus_annual_at_65 := 0 }
  expenditure := { base := fun _ => 10, at60 := fun _ => 0, at65 := fun _ => 0 }
  school_lump_sums := []
  insurance_policies := []
  other_lump_expenditures := []
  housing_loan := { loan_amount := 0, loan_interest_rate := 0, loan_term_years := 35, start_year := 1 }

/-- A concrete loop state with both age flags already fired. -/
def sW : SimState where
  current_assets := 0
  main := 1
  sub := 2
  bonus := 3
  curExp := fun _ => 4
  ages := [("A", 70)]
  changed60 := true
  changed65 := true

/-- A concrete school stage: entry at age 6, 6 years, lump 100, annual 50
(man-yen). -/
def stW : SchoolStage where
  amount := 100
  start_age := 6
  duration := 6
  annual_cost := 50

/-- Two members sharing the name "A" with different initial ages. -/
def mA : Member where
  name := "A"
  initial_age := 10

/-- See `mA`. -/
def mB : Member where
  name := "A"
  initial_age := 20

@[simp] lemma applyGrowth_current_assets (cfg : Config) (y : Nat) (s : SimState) :
    (applyGrowth cfg y s).current_assets = s.current_assets := by
  unfold applyGrowth; split <;> rfl

@[simp] lemma applyGrowth_ages (cfg : Config) (y : Nat) (s : SimState) :
    (applyGrowth cfg y s).ages = s.ages := by
  unfold applyGrowth; split <;> rfl

@[simp] lemma applyGrowth_curExp (cfg : Config) (y : Nat) (s : SimState) :
    (applyGrowth cfg y s).curExp = s.curExp := by
  unfold applyGrowth; split <;> rfl

@[simp] lemma applyGrowth_changed60 (cfg : Config) (y : Nat) (s : SimState) :
    (applyGrowth cfg y s).changed60 = s.changed60 := by
  unfold applyGrowth; split <;> rfl

@[simp] lemma applyGrowth_changed65 (cfg : Config) (y : Nat) (s : SimState) :
    (applyGrowth cfg y s).changed65 = s.changed65 := by
  unfold applyGrowth; split <;> rfl

@[simp] lemma applyAt60_current_assets (cfg : Config) (a : Int) (s : SimState) :
    (applyAt60 cfg a s).current_assets = s.current_assets := by
  unfold applyAt60; split <;> rfl

@[simp] lemma applyAt60_ages (cfg : Config) (a : Int) (s : SimState) :
    (applyAt60 cfg a s).ages = s.ages := by
  unfold applyAt60; split <;> rfl

@[simp] lemma applyAt60_changed65 (cfg : Config) (a : Int) (s : SimState) :
    (applyAt60 cfg a s).changed65 = s.changed65 := by
  unfold applyAt60; split <;> rfl

@[simp] lemma applyAt65_current_assets (cfg : Config) (a : Int) (s : SimState) :
    (applyAt65 cfg a s).current_assets = s.current_assets := by
  unfold applyAt65; split <;> rfl

@[simp] lemma applyAt65_ages (cfg : Config) (a : Int) (s : SimState) :
    (applyAt65 cfg a s).ages = s.ages := by
  unfold applyAt65; split <;> rfl

@[simp] lemma applyAt65_changed60 (cfg : Config) (a : Int) (s : SimState) :
    (applyAt65 cfg a s).changed60 = s.changed60 := by
  unfold applyAt65; split <;> rfl

@[simp] lemma applyOverrides_current_assets (cfg : Config) (s : SimState) :
    (applyOverrides cfg s).current_assets = s.current_assets := by
  unfold applyOverrides
  cases cfg.family.members <;> simp

@[simp] lemma applyOverrides_ages (cfg : Config) (s : SimState) :
    (applyOverrides cfg s).ages = s.ages := by
  unfold applyOverrides
  cases cfg.family.members <;> simp

@[simp] lemma midState_current_assets (cfg : Config) (y : Nat) (s : SimState) :
    (midState cfg y s).current_assets = s.current_assets := by
  unfold midState; simp

@[simp] lemma midState_ages (cfg : Config) (y : Nat) (s : SimState) :
    (midState cfg y s).ages = s.ages := by
  unfold midState; simp

lemma applyAt60_changed60_mono (cfg : Config) (a : Int) (s : SimState)
    (h : s.changed60 = true) : (applyAt60 cfg a s).changed60 = true := by
  unfold applyAt60
  split
  · rfl
  · exact h

lemma applyAt65_changed65_mono (cfg : Config) (a : Int) (s : SimState)
    (h : s.changed65 = true) : (applyAt65 cfg a s).changed65 = true := by
  unfold applyAt65
  split
  · rfl
  · exact h

lemma applyAt65_changed65_keep (cfg : Config) (a : Int) (s : SimState) :
    s.changed65 = true → (applyAt65 cfg a s).changed65 = true :=
  applyAt65_changed65_mono cfg a s

lemma applyOverrides_changed60_mono (cfg : Config) (s : SimState)
    (h : s.changed60 = true) : (applyOverrides cfg s).changed60 = true := by
  unfold applyOverrides
  cases cfg.family.members with
  | nil => exact h
  | cons m0 ms => simpa using applyAt60_changed60_mono cfg (lookupAge s.ages m0.name) s h

lemma applyOverrides_changed65_mono (cfg : Config) (s : SimState)
    (h : s.changed65 = true) : (applyOverrides cfg s).changed65 = true := by
  unfold applyOverrides
  cases cfg.family.members with
  | nil => exact h
  | cons m0 ms =>
    apply applyAt65_changed65_mono
    unfold applyAt60
    split <;> exact h

lemma yearStep_fst_changed60 (cfg : Config) (y : Nat) (s : SimState) :
    ((yearStep cfg y s).1).changed60 = (midState cfg y s).changed60 := rfl

lemma yearStep_fst_changed65 (cfg : Config) (y : Nat) (s : SimState) :
    ((yearStep cfg y s).1).changed65 = (midState cfg y s).changed65 := rfl

lemma midState_changed60_mono (cfg : Config) (y : Nat) (s : SimState)
    (h : s.changed60 = true) : (midState cfg y s).changed60 = true := by
  unfold midState
  exact applyOverrides_changed60_mono cfg _ (by simpa using h)

lemma midState_changed65_mono (cfg : Config) (y : Nat) (s : SimState)
    (h : s.changed65 = true) : (midState cfg y s).changed65 = true := by
  unfold midState
  exact applyOverrides_changed65_mono cfg _ (by simpa using h)

lemma stepState_changed60_mono (cfg : Config) (y : Nat) (s : SimState)
    (h : s.changed60 = true) : ((yearStep cfg y s).1).changed60 = true := by
  rw [yearStep_fst_changed60]
  exact midState_changed60_mono cfg y s h

lemma stepState_changed65_mono (cfg : Config) (y : Nat) (s : SimState)
    (h : s.changed65 = true) : ((yearStep cfg y s).1).changed65 = true := by
  rw [yearStep_fst_changed65]
  exact midState_changed65_mono cfg y s h

lemma applyGrowth_of_flag (cfg : Config) (y : Nat) (s : SimState)
    (h : s.changed60 = true ∨ s.changed65 = true) : applyGrowth cfg y s = s := by
  unfold applyGrowth
  split
  · rename_i hc
    rcases h with h | h <;> simp [h] at hc
  · rfl

lemma applyAt60_of_flag (cfg : Config) (a : Int) (s : SimState)
    (h : s.changed60 = true) : applyAt60 cfg a s = s := by
  unfold applyAt60
  split
  · rename_i hc
    simp [h] at hc
  · rfl

lemma applyAt65_of_flag (cfg : Config) (a : Int) (s : SimState)
    (h : s.changed65 = true) : applyAt65 cfg a s = s := by
  unfold applyAt65
  split
  · rename_i hc
    simp [h] at hc
  · rfl

lemma midState_of_flags (cfg : Config) (y : Nat) (s : SimState)
    (h60 : s.changed60 = true) (h65 : s.changed65 = true) : midState cfg y s = s := by
  unfold midState applyOverrides
  rw [applyGrowth_of_flag cfg y s (Or.inl h60)]
  cases cfg.family.members with
  | nil => rfl
  | cons m0 ms =>
    show applyAt65 cfg (lookupAge s.ages m0.name) (applyAt60 cfg (lookupAge s.ages m0.name) s) = s
    rw [applyAt60_of_flag cfg _ s h60, applyAt65_of_flag cfg _ s h65]

/-- For a nonnegative rational, `truncQ` is the floor. -/
lemma truncQ_of_nonneg (q : ℚ) (h : 0 ≤ q) : truncQ q = ⌊q⌋ := by
  unfold truncQ
  simp [h]

/-- For a negative rational, `truncQ` is the ceiling. -/
lemma truncQ_of_neg (q : ℚ) (h : q < 0) : truncQ q = ⌈q⌉ := by
  unfold truncQ
  simp [not_le.mpr h]

lemma truncQ_bounds_nonneg (q : ℚ) (h : 0 ≤ q) :
    (truncQ q : ℚ) ≤ q ∧ q - 1 < (truncQ q : ℚ) := by
  rw [truncQ_of_nonneg q h]
  exact ⟨Int.floor_le q, Int.sub_one_lt_floor q⟩

lemma truncQ_bounds_neg (q : ℚ) (h : q < 0) :
    q ≤ (truncQ q : ℚ) ∧ (truncQ q : ℚ) < q + 1 := by
  rw [truncQ_of_neg q h]
  exact ⟨Int.le_ceil q, Int.ceil_lt_add_one q⟩

lemma abs_le_one_of_rat_bounds (z : Int) (h1 : (-2 : ℚ) < (z : ℚ)) (h2 : (z : ℚ) < 2) :
    |z| ≤ 1 := by
  have hz1 : (-2 : Int) < z := by exact_mod_cast h1
  have hz2 : z < (2 : Int) := by exact_mod_cast h2
  rw [abs_le]
  omega

/-- A non-positive principal gives a zero monthly payment. -/
lemma mlp_zero_of_nonpos (cfg : Config) (h : cfg.housing_loan.loan_amount ≤ 0) :
    mlpOf cfg = 0 := by
  unfold mlpOf calculate_monthly_loan_payment
  rw [if_pos]
  left
  linarith

/-- The housing-coverage condition restated with the window's right end. -/
lemma housing_covered_iff (loan : HousingLoan) (y : Nat) :
    housing_covered loan y ↔
      0 < loan.loan_amount ∧ loan.start_year ≤ (y : Int) ∧
        (y : Int) ≤ loan.start_year + loan.loan_term_years - 1 := by
  unfold housing_covered
  constructor
  · rintro ⟨h1, h2, h3⟩
    exact ⟨h1, h2, by omega⟩
  · rintro ⟨h1, h2, h3⟩
    exact ⟨h1, h2, by omega⟩

/-- The truncation of a difference is within one unit of the difference of
the truncations. -/
lemma truncQ_sub_bound (i e : ℚ) : |truncQ (i - e) - (truncQ i - truncQ e)| ≤ 1 := by
  apply abs_le_one_of_rat_bounds
  all_goals
    push_cast
    rcases le_or_lt 0 i with hi | hi <;> rcases le_or_lt 0 e with he | he <;>
      rcases le_or_lt 0 (i - e) with hb | hb
  all_goals
    first
    | (have b1 := truncQ_bounds_nonneg i hi
       have b2 := truncQ_bounds_nonneg e he
       first
       | (have b0 := truncQ_bounds_nonneg (i - e) hb; linarith [b0.1, b0.2, b1.1, b1.2, b2.1, b2.2])
       | (have b0 := truncQ_bounds_neg (i - e) hb; linarith [b0.1, b0.2, b1.1, b1.2, b2.1, b2.2]))
    | (have b1 := truncQ_bounds_nonneg i hi
       have b2 := truncQ_bounds_neg e he
       first
       | (have b0 := truncQ_bounds_nonneg (i - e) hb; linarith [b0.1, b0.2, b1.1, b1.2, b2.1, b2.2])
       | (have b0 := truncQ_bounds_neg (i - e) hb; linarith [b0.1, b0.2, b1.1, b1.2, b2.1, b2.2]))
    | (have b1 := truncQ_bounds_neg i hi
       have b2 := truncQ_bounds_nonneg e he
       first
       | (have b0 := truncQ_bounds_nonneg (i - e) hb; linarith [b0.1, b0.2, b1.1, b1.2, b2.1, b2.2])
       | (have b0 := truncQ_bounds_neg (i - e) hb; linarith [b0.1, b0.2, b1.1, b1.2, b2.1, b2.2]))
    | (have b1 := truncQ_bounds_neg i hi
       have b2 := truncQ_bounds_neg e he
       first
       | (have b0 := truncQ_bounds_nonneg (i - e) hb; linarith [b0.1, b0.2, b1.1, b1.2, b2.1, b2.2])
       | (have b0 := truncQ_bounds_neg (i - e) hb; linarith [b0.1, b0.2, b1.1, b1.2, b2.1, b2.2]))

/-- C1: the running asset value satisfies the compounding recurrence: it
starts at `initialAssets` (converted to yen), and after each simulated year it
equals the previous year's value times `(1 + investmentReturnRate)` plus that
year's annual balance; the emitted record's asset value is exactly the running
value, and insurance maturity payouts enter only as a summand of the year's
income, with no separate post-growth asset adjustment. -/
theorem C1_asset_recurrence (cfg : Config) (y : Nat) :
    (stateAfter cfg 0).current_assets = cfg.family.initial_assets * 10000 ∧
    (stateAfter cfg (y + 1)).current_assets
      = (stateAfter cfg y).current_assets * (1 + cfg.family.investment_return_rate)
        + (recordFor cfg (y + 1)).balanceQ ∧
    (recordFor cfg (y + 1)).assetsQ = (stateAfter cfg (y + 1)).current_assets ∧
    (recordFor cfg (y + 1)).incomeQ
      = ((midState cfg (y + 1) (stateAfter cfg y)).main
          + (midState cfg (y + 1) (stateAfter cfg y)).sub) * 12
        + (midState cfg (y + 1) (stateAfter cfg y)).bonus
        + annual_insurance_payout cfg.insurance_policies (y + 1) := by
  refine ⟨rfl, ?_, rfl, rfl⟩
  show newAssetsOf cfg (y + 1) (midState cfg (y + 1) (stateAfter cfg y))
      = (stateAfter cfg y).current_assets * (1 + cfg.family.investment_return_rate)
        + balanceQof cfg (y + 1) (midState cfg (y + 1) (stateAfter cfg y))
  unfold newAssetsOf
  rw [midState_current_assets]

/-- C2: in every emitted record, the real-valued annual balance is exactly
annual income minus annual expense, and the recorded (truncated) balance
differs from the difference of the recorded income and recorded expense by at
most one yen; the emitted sequence consists exactly of the per-year records. -/
theorem C2_balance_exact (cfg : Config) (y : Nat) :
    (recordFor cfg y).balanceQ = (recordFor cfg y).incomeQ - (recordFor cfg y).expenseQ ∧
    |(recordFor cfg y).balance - ((recordFor cfg y).income - (recordFor cfg y).expense)| ≤ 1 ∧
    simulate_life_plan cfg
      = (List.range cfg.family.years_to_simulate).map (fun i => recordFor cfg (i + 1)) := by
  refine ⟨rfl, ?_, rfl⟩
  exact truncQ_sub_bound _ _

/-- C3: the engine emits exactly `years_to_simulate` records, and their year
fields are `1, 2, ..., years_to_simulate` in order, with no gaps and no
partial sequence. -/
theorem C3_output_shape (cfg : Config) :
    (simulate_life_plan cfg).length = cfg.family.years_to_simulate ∧
    (simulate_life_plan cfg).map (fun r => r.year)
      = (List.range cfg.family.years_to_simulate).map (fun i => i + 1) := by
  constructor
  · simp [simulate_life_plan]
  · rw [simulate_life_plan, List.map_map]
    show (List.range cfg.family.years_to_simulate).map (fun i => (recordFor cfg (i + 1)).year) = _
    have h : (fun i => (recordFor cfg (i + 1)).year) = (fun i : Nat => i + 1) := by
      funext i
      rfl
    rw [h]

/-- C4: the loan amortizer returns 0 whenever the principal or the term is
non-positive; for a positive principal, zero annual rate and positive term it
is the straight-line division of the yen principal by the number of monthly
payments; otherwise it is the standard annuity value with monthly rate
`annualRate/12` over `termYears*12` payments. -/
theorem C4_loan_amortizer (p r : ℚ) (t : Int) :
    ((p ≤ 0 ∨ t ≤ 0) → calculate_monthly_loan_payment p r t = 0) ∧
    (0 < p → 0 < t → r = 0 →
      calculate_monthly_loan_payment p r t = p * 10000 / ((t : ℚ) * 12)) ∧
    (0 < p → 0 < t → r ≠ 0 →
      calculate_monthly_loan_payment p r t
        = p * 10000 * (r / 12 * (1 + r / 12) ^ (t * 12).toNat)
            / ((1 + r / 12) ^ (t * 12).toNat - 1)) := by
  refine ⟨?_, ?_, ?_⟩
  · intro h
    unfold calculate_monthly_loan_payment
    rw [if_pos]
    rcases h with h | h
    · exact Or.inl (by linarith)
    · exact Or.inr h
  · intro hp ht hr
    unfold calculate_monthly_loan_payment
    rw [if_neg, if_pos]
    · have hcast : (((t * 12).toNat : Int) : ℚ) = ((t * 12 : Int) : ℚ) := by
        rw [Int.toNat_of_nonneg (by omega)]
      have : (((t * 12).toNat : Nat) : ℚ) = (t : ℚ) * 12 := by
        push_cast at hcast ⊢
        rw [hcast]
      rw [this]
    · rw [hr, zero_div]
    · push_neg
      exact ⟨by linarith, by omega⟩
  · intro hp ht hr
    unfold calculate_monthly_loan_payment
    rw [if_neg, if_neg]
    · intro h
      rcases div_eq_zero_iff.mp h with h' | h'
      · exact hr h'
      · norm_num at h'
    · push_neg
      exact ⟨by linarith, by omega⟩

/-- C8: the annual loan charge of a year equals `monthlyPayment * 12` in the
years of the repayment window `startYear ≤ y ≤ startYear + termYears - 1` and
is 0 in all other years (a non-positive principal makes the monthly payment 0,
so both branches vanish); the housing recurring-expense line is dropped from
the monthly recurring total exactly in the window years with a positive
principal, and is included otherwise. -/
theorem C8_loan_window (cfg : Config) (y : Nat) (cur : Cat → ℚ) :
    (annual_loan_payment cfg.housing_loan (mlpOf cfg) y
      = if cfg.housing_loan.start_year ≤ (y : Int) ∧
            (y : Int) ≤ cfg.housing_loan.start_year + cfg.housing_loan.loan_term_years - 1
        then mlpOf cfg * 12 else 0) ∧
    (base_monthly_exp cfg.housing_loan y cur
      = if 0 < cfg.housing_loan.loan_amount ∧ cfg.housing_loan.start_year ≤ (y : Int) ∧
            (y : Int) ≤ cfg.housing_loan.start_year + cfg.housing_loan.loan_term_years - 1
        then (Cat.all.map cur).sum - cur Cat.housing
        else (Cat.all.map cur).sum) := by
  constructor
  · by_cases hla : 0 < cfg.housing_loan.loan_amount
    · by_cases hw : cfg.housing_loan.start_year ≤ (y : Int) ∧
          (y : Int) ≤ cfg.housing_loan.start_year + cfg.housing_loan.loan_term_years - 1
      · rw [if_pos hw]
        unfold annual_loan_payment
        rw [if_pos]
        exact ⟨hla, by omega, hw.1, by omega⟩
      · rw [if_neg hw]
        unfold annual_loan_payment
        rw [if_neg]
        rintro ⟨h1, h2, h3, h4⟩
        exact hw ⟨h3, by omega⟩
    · have hm : mlpOf cfg = 0 := mlp_zero_of_nonpos cfg (by linarith)
      unfold annual_loan_payment
      rw [if_neg (by rintro ⟨h1, _⟩; exact hla h1), hm]
      split <;> norm_num
  · by_cases hc : housing_covered cfg.housing_loan y
    · rw [if_pos ((housing_covered_iff cfg.housing_loan y).mp hc)]
      unfold base_monthly_exp Cat.all
      simp [hc]
    · rw [if_neg (fun h => hc ((housing_covered_iff cfg.housing_loan y).mpr h))]
      unfold base_monthly_exp Cat.all
      simp [hc]

/-- C9: every monetary field written into an emitted record is the
toward-zero integer truncation (`truncQ`) of the corresponding real-valued
quantity, the untruncated real asset value (not the truncated recorded one)
is what the next year's compounding starts from, and consequently the
recorded balance differs from recorded income minus recorded expense by at
most one yen. -/
theorem C9_record_truncation (cfg : Config) (y : Nat) :
    (recordFor cfg y).income = truncQ (recordFor cfg y).incomeQ ∧
    (recordFor cfg y).expense = truncQ (recordFor cfg y).expenseQ ∧
    (recordFor cfg y).balance = truncQ (recordFor cfg y).balanceQ ∧
    (recordFor cfg y).yearEndAssets = truncQ (recordFor cfg y).assetsQ ∧
    (recordFor cfg y).monthlyDisp = truncQ (recordFor cfg y).monthlyDispQ ∧
    (recordFor cfg y).premium = truncQ (recordFor cfg y).premiumQ ∧
    (recordFor cfg y).loanPay = truncQ (recordFor cfg y).loanPayQ ∧
    (recordFor cfg y).schoolLump = truncQ (recordFor cfg y).schoolLumpQ ∧
    (recordFor cfg y).schoolEnroll = truncQ (recordFor cfg y).schoolEnrollQ ∧
    (recordFor cfg y).otherLump = truncQ (recordFor cfg y).otherLumpQ ∧
    (recordFor cfg y).payout = truncQ (recordFor cfg y).payoutQ ∧
    (stateAfter cfg (y + 1)).current_assets = (recordFor cfg (y + 1)).assetsQ ∧
    |(recordFor cfg y).balance - ((recordFor cfg y).income - (recordFor cfg y).expense)| ≤ 1 := by
  refine ⟨rfl, rfl, rfl, rfl, rfl, rfl, rfl, rfl, rfl, rfl, rfl, rfl, ?_⟩
  exact truncQ_sub_bound _ _

/-- Witness for C4: the zero-principal guard, the zero-rate straight line and
the annuity branch at concrete inputs. -/
theorem C4_loan_amortizer_witness :
    ((0 : ℚ) ≤ 0 ∨ (35 : Int) ≤ 0) ∧
    calculate_monthly_loan_payment 0 (1 / 100) 35 = 0 ∧
    (0 < (1200 : ℚ) ∧ 0 < (10 : Int) ∧ (0 : ℚ) = 0) ∧
    calculate_monthly_loan_payment 1200 0 10 = 1200 * 10000 / ((10 : ℚ) * 12) ∧
    ((2 : ℚ) / 100 ≠ 0) ∧
    calculate_monthly_loan_payment 1200 (2 / 100) 10
      = 1200 * 10000 * (2 / 100 / 12 * (1 + 2 / 100 / 12) ^ ((10 : Int) * 12).toNat)
          / ((1 + 2 / 100 / 12) ^ ((10 : Int) * 12).toNat - 1) :=
  ⟨Or.inl le_rfl,
   (C4_loan_amortizer 0 (1 / 100) 35).1 (Or.inl le_rfl),
   ⟨by norm_num, by norm_num, rfl⟩,
   (C4_loan_amortizer 1200 0 10).2.1 (by norm_num) (by norm_num) rfl,
   by norm_num,
   (C4_loan_amortizer 1200 (2 / 100) 10).2.2 (by norm_num) (by norm_num) (by norm_num)⟩

/-- Counterexample for C5: the policy `polW` has `start_year = 0`, yet the
single simulated year of `cfgC5` records an insurance premium of 60 yen
(5 yen per month times 12), so a start year of 0 does NOT mean the premium is
never charged. -/
theorem C5_counterexample :
    cfgC5.insurance_policies = [polW] ∧ polW.start_year = 0 ∧
    (simulate_life_plan cfgC5).map (fun r => r.premium) = [60] := by
  refine ⟨rfl, rfl, ?_⟩
  have hn : cfgC5.family.years_to_simulate = 1 := rfl
  have hsim : (simulate_life_plan cfgC5).map (fun r => r.premium)
      = [(recordFor cfgC5 1).premium] := by
    unfold simulate_life_plan
    rw [hn]
    have hr : List.range 1 = [0] := rfl
    simp [hr]
  rw [hsim]
  have h1 : (recordFor cfgC5 1).premium
      = truncQ (annual_insurance_premium cfgC5.insurance_policies 1) := rfl
  have h2 : annual_insurance_premium cfgC5.insurance_policies 1 = 60 := by
    show annual_insurance_premium [polW] 1 = 60
    unfold annual_insurance_premium policy_premium polW
    norm_num
  have h3 : truncQ (60 : ℚ) = 60 := by
    rw [truncQ_of_nonneg _ (by norm_num)]
    norm_num
  rw [h1, h2, h3]

/-- C5 as amended: a `maturity_year` of 0 indeed disables the payout in every
year, but the premium of a policy is charged in exactly the years
`y ≥ start_year`, so a `start_year` of 0 (like any value at most 1) charges
the premium from the first simulated year on rather than never. -/
theorem C5_amended_policy (p : Policy) (y : Nat) :
    (p.maturity_year = 0 → policy_payout p y = 0) ∧
    (policy_premium p y = if p.start_year ≤ (y : Int) then p.monthly_premium * 12 else 0) ∧
    (p.start_year = 0 → 1 ≤ y → policy_premium p y = p.monthly_premium * 12) := by
  refine ⟨?_, rfl, ?_⟩
  · intro h
    unfold policy_payout
    rw [if_neg]
    rintro ⟨h1, h2⟩
    omega
  · intro h hy
    unfold policy_premium
    rw [if_pos]
    rw [h]
    exact_mod_cast Nat.zero_le y

/-- Witness for C5's amended statement at the concrete policy `polW`. -/
theorem C5_amended_policy_witness :
    polW.maturity_year = 0 ∧ policy_payout polW 1 = 0 ∧
    polW.start_year = 0 ∧ 1 ≤ 1 ∧ policy_premium polW 1 = polW.monthly_premium * 12 :=
  ⟨rfl, (C5_amended_policy polW 1).1 rfl, rfl, le_rfl,
   (C5_amended_policy polW 1).2.2 rfl le_rfl⟩

lemma stateAfter_changed60_mono (cfg : Config) (y k : Nat)
    (h : (stateAfter cfg y).changed60 = true) :
    (stateAfter cfg (y + k)).changed60 = true := by
  induction k with
  | zero => exact h
  | succ n ih =>
    show ((yearStep cfg (y + n + 1) (stateAfter cfg (y + n))).1).changed60 = true
    exact stepState_changed60_mono cfg _ _ ih

lemma stateAfter_changed65_mono (cfg : Config) (y k : Nat)
    (h : (stateAfter cfg y).changed65 = true) :
    (stateAfter cfg (y + k)).changed65 = true := by
  induction k with
  | zero => exact h
  | succ n ih =>
    show ((yearStep cfg (y + n + 1) (stateAfter cfg (y + n))).1).changed65 = true
    exact stepState_changed65_mono cfg _ _ ih

/-- C6: the two age flags are one-shot and monotonic.  The periodic growth
multiplication is skipped whenever either flag is set at the start of a
year's processing, and is applied (to every income component) when neither
flag is set and the year conditions hold; each override block is a no-op once
its flag is set (it never re-fires); a set flag stays set across a year step
and across the whole remaining run; and once both flags have fired, a year
step leaves every income component and every recurring-expense component
value unchanged (no re-fire, no reversion). -/
theorem C6_one_shot_flags (cfg : Config) (y k : Nat) (s : SimState) :
    ((s.changed60 = true ∨ s.changed65 = true) → applyGrowth cfg y s = s) ∧
    (s.changed60 = false → s.changed65 = false →
      (y - 1) % cfg.family.income_growth_step_years = 0 → 1 < y →
      (applyGrowth cfg y s).main = s.main * (1 + cfg.family.income_growth_rate) ∧
      (applyGrowth cfg y s).sub = s.sub * (1 + cfg.family.income_growth_rate) ∧
      (applyGrowth cfg y s).bonus = s.bonus * (1 + cfg.family.income_growth_rate)) ∧
    (∀ a : Int, s.changed60 = true → applyAt60 cfg a s = s) ∧
    (∀ a : Int, s.changed65 = true → applyAt65 cfg a s = s) ∧
    (s.changed60 = true → ((yearStep cfg y s).1).changed60 = true) ∧
    (s.changed65 = true → ((yearStep cfg y s).1).changed65 = true) ∧
    ((stateAfter cfg y).changed60 = true → (stateAfter cfg (y + k)).changed60 = true) ∧
    ((stateAfter cfg y).changed65 = true → (stateAfter cfg (y + k)).changed65 = true) ∧
    (s.changed60 = true → s.changed65 = true →
      ((yearStep cfg y s).1).main = s.main ∧ ((yearStep cfg y s).1).sub = s.sub ∧
      ((yearStep cfg y s).1).bonus = s.bonus ∧
      ∀ c, ((yearStep cfg y s).1).curExp c = s.curExp c) := by
  refine ⟨applyGrowth_of_flag cfg y s, ?_,
    fun a h => applyAt60_of_flag cfg a s h, fun a h => applyAt65_of_flag cfg a s h,
    stepState_changed60_mono cfg y s,
    stepState_changed65_mono cfg y s, stateAfter_changed60_mono cfg y k,
    stateAfter_changed65_mono cfg y k, ?_⟩
  · intro h1 h2 h3 h4
    unfold applyGrowth
    rw [if_pos ⟨h1, h2, h3, h4⟩]
    exact ⟨rfl, rfl, rfl⟩
  · intro h60 h65
    have hm := midState_of_flags cfg y s h60 h65
    refine ⟨?_, ?_, ?_, fun c => ?_⟩
    · show (midState cfg y s).main = s.main
      rw [hm]
    · show (midState cfg y s).sub = s.sub
      rw [hm]
    · show (midState cfg y s).bonus = s.bonus
      rw [hm]
    · show (midState cfg y s).curExp c = s.curExp c
      rw [hm]

lemma yearStep_fst_ages (cfg : Config) (y : Nat) (s : SimState) :
    ((yearStep cfg y s).1).ages = s.ages.map (fun p => (p.1, p.2 + 1)) := by
  show (midState cfg y s).ages.map (fun p => (p.1, p.2 + 1)) = s.ages.map (fun p => (p.1, p.2 + 1))
  rw [midState_ages]

/-- Every tracked age advances by exactly one per simulated year: after `y`
years each entry of the age dict is its initial value plus `y`. -/
lemma stateAfter_ages (cfg : Config) (y : Nat) :
    (stateAfter cfg y).ages
      = (buildAges cfg.family.members).map (fun q => (q.1, q.2 + (y : Int))) := by
  induction y with
  | zero =>
    show buildAges cfg.family.members = _
    have h : (fun q : String × Int => (q.1, q.2 + ((0 : Nat) : Int))) = id := by
      funext q
      simp
    rw [h, List.map_id]
  | succ n ih =>
    show ((yearStep cfg (n + 1) (stateAfter cfg n)).1).ages = _
    rw [yearStep_fst_ages, ih, List.map_map]
    congr 1
    funext q
    simp [Function.comp]
    ring

/-- Witness for C6 at the concrete state `sW`, whose flags are both set. -/
theorem C6_one_shot_flags_witness :
    (sW.changed60 = true ∨ sW.changed65 = true) ∧ applyGrowth cfgW 2 sW = sW ∧
    ((yearStep cfgW 2 sW).1).main = sW.main ∧
    ((yearStep cfgW 2 sW).1).curExp Cat.food = sW.curExp Cat.food :=
  ⟨Or.inl rfl,
   (C6_one_shot_flags cfgW 2 0 sW).1 (Or.inl rfl),
   ((C6_one_shot_flags cfgW 2 0 sW).2.2.2.2.2.2.2.2 rfl rfl).1,
   ((C6_one_shot_flags cfgW 2 0 sW).2.2.2.2.2.2.2.2 rfl rfl).2.2.2 Cat.food⟩

/-- C7: for a school stage with a positive `start_age`, one member's
enrollment-cost contribution is the stage's annual cost exactly when the
member's start-of-year age lies in `[startAge, startAge + duration - 1]` and
0 otherwise, and the lump-sum contribution is the stage's amount exactly when
the age equals `startAge` (a single year, since ages advance by one per
year); contributions of several stages and several tracked members simply
add, with no mutual exclusion. -/
theorem C7_school_accrual (stage : SchoolStage) (age : Int) (stages : List SchoolStage)
    (p : String × Int) (ages : List (String × Int)) (cfg : Config) (y : Nat) :
    (0 < stage.start_age →
      member_school_enroll [stage] age
        = if stage.start_age ≤ age ∧ age ≤ stage.start_age + stage.duration - 1
          then stage.annual_cost * 10000 else 0) ∧
    (0 < stage.start_age →
      member_school_lump [stage] age
        = if age = stage.start_age then stage.amount * 10000 else 0) ∧
    (member_school_lump (stage :: stages) age
      = (if 0 < stage.start_age ∧ age = stage.start_age then stage.amount * 10000 else 0)
        + member_school_lump stages age) ∧
    (member_school_enroll (stage :: stages) age
      = (if 0 < stage.start_age ∧ 0 < stage.duration ∧ stage.start_age ≤ age ∧
            age ≤ stage.start_age + stage.duration - 1
          then stage.annual_cost * 10000 else 0)
        + member_school_enroll stages age) ∧
    (annual_school_lump stages (p :: ages)
      = (if 0 < p.2 then member_school_lump stages p.2 else 0)
        + annual_school_lump stages ages) ∧
    (annual_school_enroll stages (p :: ages)
      = (if 0 < p.2 then member_school_enroll stages p.2 else 0)
        + annual_school_enroll stages ages) ∧
    (stateAfter cfg y).ages
      = (buildAges cfg.family.members).map (fun q => (q.1, q.2 + (y : Int))) := by
  refine ⟨?_, ?_, rfl, rfl, rfl, rfl, stateAfter_ages cfg y⟩
  · intro hsa
    unfold member_school_enroll
    simp only [List.map_cons, List.map_nil, List.sum_cons, List.sum_nil, add_zero]
    split_ifs <;> first | rfl | (exfalso; omega)
  · intro hsa
    unfold member_school_lump
    simp only [List.map_cons, List.map_nil, List.sum_cons, List.sum_nil, add_zero]
    split_ifs <;> first | rfl | (exfalso; omega)

/-- Witness for C7 at the concrete stage `stW` and age 6. -/
theorem C7_school_accrual_witness :
    (0 : Int) < stW.start_age ∧
    member_school_enroll [stW] 6
      = (if stW.start_age ≤ 6 ∧ (6 : Int) ≤ stW.start_age + stW.duration - 1
          then stW.annual_cost * 10000 else 0) ∧
    member_school_lump [stW] 6
      = (if (6 : Int) = stW.start_age then stW.amount * 10000 else 0) :=
  ⟨by decide,
   (C7_school_accrual stW 6 [] ("A", 6) [] cfgW 0).1 (by decide),
   (C7_school_accrual stW 6 [] ("A", 6) [] cfgW 0).2.1 (by decide)⟩

lemma find?_of_any_false {α : Type} (m : List α) (p : α → Bool)
    (h : m.any p = false) : m.find? p = none :=
  List.find?_eq_none.mpr (fun x hx => List.any_eq_false.mp h x hx)

lemma find?_map_overwrite_self (m : List (String × Int)) (k : String) (v : Int)
    (h : m.any (fun p => p.1 == k) = true) :
    (m.map (fun p => if p.1 == k then (k, v) else p)).find? (fun p => p.1 == k)
      = some (k, v) := by
  induction m with
  | nil => simp at h
  | cons p t ih =>
    simp only [List.map_cons]
    cases hp : (p.1 == k) with
    | true =>
      rw [if_pos rfl]
      simp only [List.find?, beq_self_eq_true]
    | false =>
      rw [if_neg Bool.false_ne_true]
      simp only [List.find?, hp]
      apply ih
      simp only [List.any_cons, Bool.or_eq_true] at h
      rcases h with h | h
      · rw [hp] at h
        cases h
      · exact h

lemma find?_map_overwrite_other (m : List (String × Int)) (k q : String) (v : Int)
    (hq : q ≠ k) :
    (m.map (fun p => if p.1 == k then (k, v) else p)).find? (fun p => p.1 == q)
      = m.find? (fun p => p.1 == q) := by
  induction m with
  | nil => rfl
  | cons p t ih =>
    simp only [List.map_cons]
    have hkq : (k == q) = false := beq_eq_false_iff_ne.mpr (fun hh => hq hh.symm)
    cases hp : (p.1 == k) with
    | true =>
      rw [if_pos rfl]
      have hpk : p.1 = k := beq_iff_eq.mp hp
      have h2 : (p.1 == q) = false := by rw [hpk]; exact hkq
      simp only [List.find?, hkq, h2]
      exact ih
    | false =>
      rw [if_neg Bool.false_ne_true]
      cases hpq : (p.1 == q) with
      | true => simp only [List.find?, hpq]
      | false =>
        simp only [List.find?, hpq]
        exact ih

lemma lookupAge_dictInsert_self (m : List (String × Int)) (k : String) (v : Int) :
    lookupAge (dictInsert m k v) k = v := by
  unfold dictInsert lookupAge
  cases h : m.any (fun p => p.1 == k) with
  | true =>
    rw [if_pos rfl, find?_map_overwrite_self m k v h]
    rfl
  | false =>
    rw [if_neg Bool.false_ne_true, List.find?_append, find?_of_any_false m _ h]
    simp only [Option.none_or, List.find?, beq_self_eq_true]
    rfl

lemma lookupAge_dictInsert_other (m : List (String × Int)) (k q : String) (v : Int)
    (hq : q ≠ k) :
    lookupAge (dictInsert m k v) q = lookupAge m q := by
  unfold dictInsert lookupAge
  cases h : m.any (fun p => p.1 == k) with
  | true => rw [if_pos rfl, find?_map_overwrite_other m k q v hq]
  | false =>
    rw [if_neg Bool.false_ne_true, List.find?_append]
    have hkq : (k == q) = false := beq_eq_false_iff_ne.mpr (fun hh => hq hh.symm)
    have h1 : List.find? (fun p => p.1 == q) [(k, v)] = none := by
      simp only [List.find?, hkq]
    rw [h1, Option.or_none]

lemma lastNamedAge_cons (mb : Member) (t : List Member) (q : String) :
    lastNamedAge (mb :: t) q
      = if t.any (fun x => x.name == q) = true then lastNamedAge t q
        else if (mb.name == q) = true then mb.initial_age else 0 := by
  unfold lastNamedAge
  rw [List.reverse_cons, List.find?_append]
  by_cases h : t.any (fun x => x.name == q) = true
  · rw [if_pos h]
    have hsome : (t.reverse.find? (fun x => x.name == q)).isSome = true := by
      rw [List.find?_isSome]
      simp only [List.mem_reverse]
      simpa [List.any_eq_true] using h
    rcases Option.isSome_iff_exists.mp hsome with ⟨x, hx⟩
    rw [hx]
    rfl
  · rw [if_neg h,
      find?_of_any_false _ _ (by rw [List.any_reverse]; simpa using h),
      Option.none_or]
    by_cases hmb : (mb.name == q) = true
    · rw [if_pos hmb]
      simp [List.find?, hmb]
    · rw [if_neg hmb]
      simp [List.find?, hmb]

lemma lookupAge_foldl (ms : List Member) :
    ∀ (acc : List (String × Int)) (q : String),
      lookupAge (ms.foldl (fun m mb => dictInsert m mb.name mb.initial_age) acc) q
        = if ms.any (fun mb => mb.name == q) = true then lastNamedAge ms q
          else lookupAge acc q := by
  induction ms with
  | nil =>
    intro acc q
    simp [lastNamedAge]
  | cons mb t ih =>
    intro acc q
    rw [List.foldl_cons, ih, lastNamedAge_cons]
    by_cases ht : t.any (fun x => x.name == q) = true
    · rw [if_pos ht, if_pos ht, if_pos (by simp [List.any_cons, ht])]
    · rw [if_neg ht, if_neg ht]
      by_cases hmb : (mb.name == q) = true
      · rw [if_pos (by simp [List.any_cons, hmb]), if_pos hmb]
        have hq : q = mb.name := (beq_iff_eq.mp hmb).symm
        rw [hq]
        exact lookupAge_dictInsert_self acc mb.name mb.initial_age
      · rw [if_neg (by simp [List.any_cons, hmb, ht])]
        exact lookupAge_dictInsert_other acc mb.name q mb.initial_age
          (fun hh => by simp [hh] at hmb)

/-- The tracked age for a name is always the `initial_age` of the last member
with that name (0 for an absent name). -/
lemma lookupAge_buildAges (members : List Member) (q : String) :
    lookupAge (buildAges members) q = lastNamedAge members q := by
  unfold buildAges
  rw [lookupAge_foldl]
  by_cases h : members.any (fun mb => mb.name == q) = true
  · rw [if_pos h]
  · rw [if_neg h]
    have h2 : lastNamedAge members q = 0 := by
      unfold lastNamedAge
      rw [find?_of_any_false _ _ (by rw [List.any_reverse]; simpa using h)]
      rfl
    rw [h2]
    rfl

lemma countP_dictInsert (m : List (String × Int)) (k q : String) (v : Int)
    (h : m.countP (fun p => p.1 == q) ≤ 1) :
    (dictInsert m k v).countP (fun p => p.1 == q) ≤ 1 := by
  unfold dictInsert
  cases hany : m.any (fun p => p.1 == k) with
  | true =>
    rw [if_pos rfl, List.countP_map]
    have heq : List.countP ((fun p : String × Int => p.1 == q)
          ∘ (fun p => if p.1 == k then (k, v) else p)) m
        = List.countP (fun p : String × Int => p.1 == q) m := by
      apply List.countP_congr
      intro x hx
      cases hxk : (x.1 == k) with
      | true =>
        have hx1 : x.1 = k := beq_iff_eq.mp hxk
        simp [Function.comp, hxk, hx1]
      | false => simp [Function.comp, hxk]
    rw [heq]
    exact h
  | false =>
    rw [if_neg Bool.false_ne_true, List.countP_append]
    cases hkq : (k == q) with
    | true =>
      have hm0 : m.countP (fun p : String × Int => p.1 == q) = 0 := by
        apply List.countP_eq_zero.mpr
        intro a ha
        have hak := List.any_eq_false.mp hany a ha
        intro haq
        apply hak
        have h1 : a.1 = q := beq_iff_eq.mp haq
        have h2 : k = q := beq_iff_eq.mp hkq
        exact beq_iff_eq.mpr (by rw [h1, h2])
      rw [hm0]
      simp [List.countP_cons, hkq]
    | false =>
      have h1 : List.countP (fun p : String × Int => p.1 == q) [(k, v)] = 0 := by
        simp [List.countP_cons, hkq]
      rw [h1]
      simpa using h

lemma countP_buildAges_aux (ms : List Member) :
    ∀ (acc : List (String × Int)) (q : String),
      acc.countP (fun p => p.1 == q) ≤ 1 →
      (ms.foldl (fun m mb => dictInsert m mb.name mb.initial_age) acc).countP
          (fun p => p.1 == q) ≤ 1 := by
  induction ms with
  | nil => intro acc q h; exact h
  | cons mb t ih =>
    intro acc q h
    rw [List.foldl_cons]
    exact ih _ q (countP_dictInsert acc mb.name q mb.initial_age h)

/-- The age dict never holds two entries for the same name. -/
lemma countP_buildAges (members : List Member) (q : String) :
    (buildAges members).countP (fun p => p.1 == q) ≤ 1 :=
  countP_buildAges_aux members [] q (by simp)

/-- C10: member ages are tracked in a name-keyed dict, so the tracked age of
a name is the `initial_age` of the LAST member with that name, the dict holds
at most one entry per name, two same-named members collapse to a single entry
carrying the later member's age, school lump sums and enrollment costs are
accrued for that one entry (once per name, not once per member), and a member
whose tracked start-of-year age is 0 contributes nothing to the school-cost
accrual. -/
theorem C10_duplicate_names (members : List Member) (q : String) (m1 m2 : Member)
    (stages : List SchoolStage) (ages : List (String × Int)) (name : String) :
    (lookupAge (buildAges members) q = lastNamedAge members q) ∧
    ((buildAges members).countP (fun p => p.1 == q) ≤ 1) ∧
    (m1.name = m2.name → buildAges [m1, m2] = [(m2.name, m2.initial_age)]) ∧
    (m1.name = m2.name →
      annual_school_lump stages (buildAges [m1, m2])
        = (if 0 < m2.initial_age then member_school_lump stages m2.initial_age else 0) ∧
      annual_school_enroll stages (buildAges [m1, m2])
        = (if 0 < m2.initial_age then member_school_enroll stages m2.initial_age else 0)) ∧
    (annual_school_lump stages ((name, 0) :: ages) = annual_school_lump stages ages) ∧
    (annual_school_enroll stages ((name, 0) :: ages) = annual_school_enroll stages ages) := by
  have hcoll : m1.name = m2.name → buildAges [m1, m2] = [(m2.name, m2.initial_age)] := by
    intro h
    have e1 : dictInsert ([] : List (String × Int)) m1.name m1.initial_age
        = [(m1.name, m1.initial_age)] := rfl
    have e2 : dictInsert [(m1.name, m1.initial_age)] m2.name m2.initial_age
        = [(m2.name, m2.initial_age)] := by
      unfold dictInsert
      rw [if_pos]
      · simp [h]
      · simp [List.any_cons, h]
    show dictInsert (dictInsert [] m1.name m1.initial_age) m2.name m2.initial_age
        = [(m2.name, m2.initial_age)]
    rw [e1, e2]
  refine ⟨lookupAge_buildAges members q, countP_buildAges members q, hcoll, ?_, ?_, ?_⟩
  · intro h
    rw [hcoll h]
    constructor <;> simp [annual_school_lump, annual_school_enroll]
  · simp [annual_school_lump]
  · simp [annual_school_enroll]

/-- Witness for C10 at the concrete same-named members `mA` and `mB`. -/
theorem C10_duplicate_names_witness :
    mA.name = mB.name ∧
    buildAges [mA, mB] = [(mB.name, mB.initial_age)] ∧
    annual_school_lump [stW] (buildAges [mA, mB])
      = (if 0 < mB.initial_age then member_school_lump [stW] mB.initial_age else 0) :=
  ⟨rfl,
   (C10_duplicate_names [] "A" mA mB [] [] "A").2.2.1 rfl,
   ((C10_duplicate_names [] "A" mA mB [stW] [] "A").2.2.2.1 rfl).1⟩

end LifePlan
